import Mathlib

/-
Shallow embedding of src/main.py: a weather agent with three tool
functions (get_lat_lng, get_weather, get_aqi) wrapping HTTP calls.
Python floats are modelled as rationals; JSON bodies as an inductive
type; the HTTP client as an oracle from requests to responses; each
tool returns its result together with the list of requests it issued.
-/

/-- JSON values, as parsed from an HTTP response body (`r.json()`).
Numbers are modelled as rationals standing in for Python floats/ints. -/
inductive Json where
  | null
  | bool (b : Bool)
  | num (q : ℚ)
  | str (s : String)
  | arr (elems : List Json)
  | obj (fields : List (String × Json))

/-- Python truthiness of a JSON value, as tested by `if data:`. -/
def Json.truthy : Json → Bool
  | .null => false
  | .bool b => b
  | .num q => decide (q ≠ 0)
  | .str s => decide (s ≠ "")
  | .arr elems => !elems.isEmpty
  | .obj fields => !fields.isEmpty

/-- Subscripting a JSON object by a string key (Python `d[k]`): `none`
when the value is not an object or the key is missing, which in the
Python source raises an uncaught (fatal) TypeError/KeyError. -/
def Json.get : Json → String → Option Json
  | .obj fields, k => fields.lookup k
  | _, _ => none

/-- Whether a JSON value is hashable as a Python dict key: lists and
dicts are not, so using one as a lookup key raises a fatal TypeError. -/
def Json.hashable : Json → Bool
  | .arr _ => false
  | .obj _ => false
  | _ => true

/-- An outbound HTTP GET request: URL and query parameters. -/
structure Request where
  url : String
  params : List (String × String)

/-- An HTTP response: status code and parsed JSON body. -/
structure Response where
  status : Nat
  body : Json

/-- The network environment: what each request would receive.  Stands in
for the shared `httpx.AsyncClient` of the Python source. -/
abbrev Net := Request → Response

/-- `httpx.Response.raise_for_status` succeeds exactly on 2xx statuses. -/
def statusOk (s : Nat) : Bool := decide (200 ≤ s) && decide (s < 300)

/-- How a tool invocation can fail:
`retry` is `pydantic_ai.ModelRetry` (a retryable signal to the agent);
`fatalStatus` is the HTTPStatusError from `raise_for_status`;
`pyError` is any other uncaught Python exception (KeyError, TypeError,
ValueError), all fatal. -/
inductive ToolError where
  | retry (msg : String)
  | fatalStatus (status : Nat)
  | pyError

/-- The dependency bag (`Deps` in the source).  The `client` field of
the Python dataclass is modelled separately as the `Net` oracle passed
to each tool; the three optional API keys are carried here. -/
structure Deps where
  weather_api_key : Option String
  geo_api_key : Option String
  aqi_index_key : Option String

/-- The structured output schema (`struct_output` in the source). -/
structure struct_output where
  Temperature : String
  Description : String
  AirQualityIndex : Int

/-- The agent configuration of `weather_agent = Agent(...)`: the parts
of the declarative configuration that are plain data. -/
structure Agent where
  system_prompt : String
  retries : Nat
  instrument : Bool

/-- The orchestrating agent's configuration from the source. -/
def weather_agent : Agent :=
  { system_prompt :=
      "When asked about the weather for one or more locations, " ++
      "handle each location separately. " ++
      "For each location, first use the `get_lat_lng` tool to find latitude and longitude, " ++
      "then use the `get_weather` tool to get the weather, " ++
      "then use the `get_aqi` tool to get the Air Quality Index. " ++
      "Be concise, one sentence per location. " ++
      "**If the input is not a weather/location-related query, refuse politely.**"
    retries := 2
    instrument := true }

/-- The request issued by `get_lat_lng`: GET to the geocoding service
with the location description and API key as query parameters. -/
def geoRequest (location_description : String) (key : String) : Request :=
  { url := "https://geocode.maps.co/search"
    params := [("q", location_description), ("api_key", key)] }

/-- The `get_lat_lng` tool.  With no geo API key it returns the fixed
mock coordinates without touching the network; otherwise it issues one
GET, fails fatally on non-2xx, raises the retryable signal on a falsy
body, and returns the first candidate's `lat`/`lon` fields. -/
def get_lat_lng (deps : Deps) (location_description : String) (net : Net) :
    Except ToolError Json × List Request :=
  match deps.geo_api_key with
  | none => (.ok (.obj [("lat", .num 51.1), ("lng", .num (-0.1))]), [])
  | some key =>
      let req := geoRequest location_description key
      let r := net req
      if statusOk r.status then
        if r.body.truthy then
          match r.body with
          | .arr (first :: _) =>
              match first.get "lat", first.get "lon" with
              | some la, some lo => (.ok (.obj [("lat", la), ("lng", lo)]), [req])
              | _, _ => (.error .pyError, [req])
          | _ => (.error .pyError, [req])
        else
          (.error (.retry "Could not find the location"), [req])
      else
        (.error (.fatalStatus r.status), [req])

/-- Python banker's rounding to an integer, as used by float formatting
with zero decimal places.  The fractional part of `q` is
`(q.num - q.floor * q.den) / q.den` with a positive denominator, so
comparing it with one half is done by cross-multiplication, keeping the
whole computation in integer arithmetic. -/
def pyRoundHalfEven (q : ℚ) : Int :=
  let f := q.floor
  let twiceRem := 2 * (q.num - f * (q.den : Int))
  if twiceRem < (q.den : Int) then f
  else if (q.den : Int) < twiceRem then f + 1
  else if f % 2 = 0 then f else f + 1

/-- Python float formatting with format spec `0.0f`: round half to even
to zero decimal places; a negative value rounding to zero prints as
`-0`. -/
def formatF0 (q : ℚ) : String :=
  let n := pyRoundHalfEven q
  if n = 0 ∧ q < 0 then "-0" else toString n

/-- Rendering of the two coordinates into the `location` query
parameter, modelling the f-string interpolation of the two floats; the
exact decimal rendering is not significant to any property below. -/
def floatPairStr (lat lng : ℚ) : String :=
  toString lat ++ "," ++ toString lng

/-- The request issued by `get_weather`: GET to the weather service
with the API key, the coordinates, and the fixed metric unit system. -/
def weatherRequest (key : String) (lat lng : ℚ) : Request :=
  { url := "https://api.tomorrow.io/v4/weather/realtime"
    params := [("apikey", key), ("location", floatPairStr lat lng), ("units", "metric")] }

/-- The `code_lookup` dict of `get_weather`, as a partial map: `none`
models a code absent from the 23-entry table. -/
def code_lookup (c : ℚ) : Option String :=
  if c = 1000 then some "Clear, Sunny"
  else if c = 1100 then some "Mostly Clear"
  else if c = 1101 then some "Partly Cloudy"
  else if c = 1102 then some "Mostly Cloudy"
  else if c = 1001 then some "Cloudy"
  else if c = 2000 then some "Fog"
  else if c = 2100 then some "Light Fog"
  else if c = 4000 then some "Drizzle"
  else if c = 4001 then some "Rain"
  else if c = 4200 then some "Light Rain"
  else if c = 4201 then some "Heavy Rain"
  else if c = 5000 then some "Snow"
  else if c = 5001 then some "Flurries"
  else if c = 5100 then some "Light Snow"
  else if c = 5101 then some "Heavy Snow"
  else if c = 6000 then some "Freezing Drizzle"
  else if c = 6001 then some "Freezing Rain"
  else if c = 6200 then some "Light Freezing Rain"
  else if c = 6201 then some "Heavy Freezing Rain"
  else if c = 7000 then some "Ice Pellets"
  else if c = 7101 then some "Heavy Ice Pellets"
  else if c = 7102 then some "Light Ice Pellets"
  else if c = 8000 then some "Thunderstorm"
  else none

/-- The list of the 22 codes present in `code_lookup`. -/
def tableCodes : List ℚ :=
  [1000, 1100, 1101, 1102, 1001, 2000, 2100, 4000, 4001, 4200, 4201,
   5000, 5001, 5100, 5101, 6000, 6001, 6200, 6201, 7000, 7101, 7102, 8000]

/-- `code_lookup.get(values[weatherCode], 'Unknown')` for a hashable
JSON key: numeric codes go through the table (Python `1000.0 == 1000`
hits the int key); any other hashable value misses every int key and
yields the default. -/
def descOf : Json → String
  | .num c => (code_lookup c).getD "Unknown"
  | _ => "Unknown"

/-- The `get_weather` tool.  With no weather API key it returns the
fixed mock temperature (and nothing else) without touching the network;
otherwise it issues one GET with metric units, fails fatally on non-2xx
or a malformed body, and returns the formatted apparent temperature and
the description looked up from the weather code. -/
def get_weather (deps : Deps) (lat lng : ℚ) (net : Net) :
    Except ToolError Json × List Request :=
  match deps.weather_api_key with
  | none => (.ok (.obj [("temperature", .str "21 °C")]), [])
  | some key =>
      let req := weatherRequest key lat lng
      let r := net req
      if statusOk r.status then
        match r.body.get "data" with
        | none => (.error .pyError, [req])
        | some d =>
            match d.get "values" with
            | none => (.error .pyError, [req])
            | some values =>
                match values.get "temperatureApparent", values.get "weatherCode" with
                | some (.num t), some wc =>
                    if wc.hashable then
                      (.ok (.obj [("temperature", .str (formatF0 t ++ "°C")),
                                  ("description", .str (descOf wc))]), [req])
                    else (.error .pyError, [req])
                | some _, some _ => (.error .pyError, [req])
                | _, _ => (.error .pyError, [req])
      else
        (.error (.fatalStatus r.status), [req])

/-- The URL issued by `get_aqi`, with coordinates in the path and the
API key as a query token. -/
def aqiUrl (token : String) (lat lng : ℚ) : String :=
  "https://api.waqi.info/feed/geo:" ++ toString lat ++ ";" ++ toString lng ++
    "/?token=" ++ token

/-- The request issued by `get_aqi` (all data rides in the URL). -/
def aqiRequest (token : String) (lat lng : ℚ) : Request :=
  { url := aqiUrl token lat lng, params := [] }

/-- The `get_aqi` tool.  With no AQI API key it returns the fixed
sentinel 10000 without touching the network; otherwise it issues one
GET, fails fatally on non-2xx, raises the retryable signal on a falsy
body, and returns the nested `data.aqi` value. -/
def get_aqi (deps : Deps) (lat lng : ℚ) (net : Net) :
    Except ToolError Json × List Request :=
  match deps.aqi_index_key with
  | none => (.ok (.obj [("AirQualityIndex", .num 10000)]), [])
  | some token =>
      let req := aqiRequest token lat lng
      let r := net req
      if statusOk r.status then
        if r.body.truthy then
          match r.body.get "data" with
          | none => (.error .pyError, [req])
          | some d =>
              match d.get "aqi" with
              | none => (.error .pyError, [req])
              | some v => (.ok (.obj [("AirQualityIndex", v)]), [req])
        else
          (.error (.retry "Could not find the location"), [req])
      else
        (.error (.fatalStatus r.status), [req])

/-- Whether a tool outcome is the retryable `ModelRetry` signal. -/
def retrySignal : Except ToolError Json → Bool
  | .error (.retry _) => true
  | _ => false

/-- A well-formed weather-service body carrying an apparent temperature
and a weather code, used to exercise `get_weather` end to end. -/
def weatherBody (t : ℚ) (wc : Json) : Json :=
  .obj [("data", .obj [("values",
    .obj [("temperatureApparent", .num t), ("weatherCode", wc)])])]

/-- Running `get_weather` with a key configured against a 200 response
whose weather code is `c` and reading back the description field. -/
def descriptionAt (c : ℚ) : Option Json :=
  match (get_weather ⟨some "apikey", none, none⟩ 0 0
      (fun _ => ⟨200, weatherBody 21 (.num c)⟩)).1 with
  | .ok j => j.get "description"
  | .error _ => none

/-- A JSON value with a successful field lookup is truthy: only a
non-empty object can answer a subscript, and non-empty objects are
truthy. -/
theorem Json.truthy_of_get {j v : Json} {k : String} (h : j.get k = some v) :
    j.truthy = true := by
  cases j <;> simp [Json.get] at h ⊢
  case obj fields =>
    cases fields with
    | nil => simp [List.lookup] at h
    | cons p ps => simp [Json.truthy, List.isEmpty]

/-- Claim C1, counterexample: on a successful weather response carrying
code 1000, the description produced by `get_weather` is the string
"Clear, Sunny" with a space after the comma, not the string
"Clear,Sunny" given for code 1000 by the claim. -/
theorem C1_counterexample :
    descriptionAt 1000 = some (Json.str "Clear, Sunny") ∧
    descriptionAt 1000 ≠ some (Json.str "Clear,Sunny") := by
  refine ⟨rfl, fun h => ?_⟩
  rw [show descriptionAt 1000 = some (Json.str "Clear, Sunny") from rfl] at h
  have hs : ("Clear, Sunny" : String) = "Clear,Sunny" := by
    injection h with h1; injection h1
  exact absurd hs (by decide)

/-- Claim C1, amended: the lookup table has 23 entries, not 22; every
code in it maps `get_weather`'s description to the table's literal
string, where code 1000 maps to "Clear, Sunny" (with a space after the
comma) rather than the spec table's "Clear,Sunny"; every code absent
from the table maps to exactly "Unknown". -/
theorem C1_weather_code_table :
    (∀ c : ℚ, c ∉ tableCodes → descriptionAt c = some (Json.str "Unknown")) ∧
    (∀ c : ℚ, descriptionAt c = some (Json.str ((code_lookup c).getD "Unknown"))) ∧
    tableCodes.length = 23 ∧
    descriptionAt 1000 = some (Json.str "Clear, Sunny") ∧
    descriptionAt 1100 = some (Json.str "Mostly Clear") ∧
    descriptionAt 1101 = some (Json.str "Partly Cloudy") ∧
    descriptionAt 1102 = some (Json.str "Mostly Cloudy") ∧
    descriptionAt 1001 = some (Json.str "Cloudy") ∧
    descriptionAt 2000 = some (Json.str "Fog") ∧
    descriptionAt 2100 = some (Json.str "Light Fog") ∧
    descriptionAt 4000 = some (Json.str "Drizzle") ∧
    descriptionAt 4001 = some (Json.str "Rain") ∧
    descriptionAt 4200 = some (Json.str "Light Rain") ∧
    descriptionAt 4201 = some (Json.str "Heavy Rain") ∧
    descriptionAt 5000 = some (Json.str "Snow") ∧
    descriptionAt 5001 = some (Json.str "Flurries") ∧
    descriptionAt 5100 = some (Json.str "Light Snow") ∧
    descriptionAt 5101 = some (Json.str "Heavy Snow") ∧
    descriptionAt 6000 = some (Json.str "Freezing Drizzle") ∧
    descriptionAt 6001 = some (Json.str "Freezing Rain") ∧
    descriptionAt 6200 = some (Json.str "Light Freezing Rain") ∧
    descriptionAt 6201 = some (Json.str "Heavy Freezing Rain") ∧
    descriptionAt 7000 = some (Json.str "Ice Pellets") ∧
    descriptionAt 7101 = some (Json.str "Heavy Ice Pellets") ∧
    descriptionAt 7102 = some (Json.str "Light Ice Pellets") ∧
    descriptionAt 8000 = some (Json.str "Thunderstorm") := by
  refine ⟨?_, fun c => rfl, rfl, rfl, rfl, rfl, rfl, rfl, rfl, rfl, rfl, rfl,
    rfl, rfl, rfl, rfl, rfl, rfl, rfl, rfl, rfl, rfl, rfl, rfl, rfl, rfl⟩
  intro c hc
  simp only [tableCodes, List.mem_cons, List.not_mem_nil, or_false, not_or] at hc
  obtain ⟨h1, h2, h3, h4, h5, h6, h7, h8, h9, h10, h11, h12, h13, h14, h15,
    h16, h17, h18, h19, h20, h21, h22, h23⟩ := hc
  rw [show descriptionAt c = some (Json.str ((code_lookup c).getD "Unknown")) from rfl]
  simp [code_lookup, h1, h2, h3, h4, h5, h6, h7, h8, h9, h10, h11, h12, h13,
    h14, h15, h16, h17, h18, h19, h20, h21, h22, h23]

/-- Claim C1, witness: code 999 is not in the table and yields the
description "Unknown". -/
theorem C1_weather_code_table_witness :
    descriptionAt 999 = some (Json.str "Unknown") :=
  C1_weather_code_table.1 999 (by decide)

/-- Claim C2: with a geocoding API key configured, a successful (2xx)
geocoding response whose parsed body is the empty candidate list makes
`get_lat_lng` raise the retryable signal with message "Could not find
the location", and no coordinate pair is returned. -/
theorem C2_geocode_empty_retries (deps : Deps) (key loc : String) (net : Net)
    (hkey : deps.geo_api_key = some key)
    (hstatus : statusOk (net (geoRequest loc key)).status = true)
    (hbody : (net (geoRequest loc key)).body = .arr []) :
    (get_lat_lng deps loc net).1 = .error (.retry "Could not find the location") ∧
    ∀ j : Json, (get_lat_lng deps loc net).1 ≠ .ok j := by
  have h1 : (get_lat_lng deps loc net).1
      = .error (.retry "Could not find the location") := by
    simp [get_lat_lng, hkey, hstatus, hbody, Json.truthy]
  exact ⟨h1, fun j hj => by rw [h1] at hj; exact Except.noConfusion hj⟩

/-- Claim C2, witness: a concrete run against a 200 response with an
empty candidate list. -/
theorem C2_geocode_empty_retries_witness :
    (get_lat_lng ⟨none, some "g", none⟩ "Paris" (fun _ => ⟨200, Json.arr []⟩)).1
      = .error (.retry "Could not find the location") :=
  (C2_geocode_empty_retries ⟨none, some "g", none⟩ "g" "Paris"
    (fun _ => ⟨200, Json.arr []⟩) rfl rfl rfl).1

/-- Claim C3: with a weather API key configured, a successful (2xx)
weather response carrying a numeric apparent temperature makes
`get_weather` return that value formatted to zero decimal places with
the Celsius symbol appended, and the single request issued carries the
metric unit system as a parameter. -/
theorem C3_weather_metric_format (deps : Deps) (key : String) (lat lng t : ℚ)
    (wc : Json) (net : Net)
    (hkey : deps.weather_api_key = some key)
    (hstatus : statusOk (net (weatherRequest key lat lng)).status = true)
    (hbody : (net (weatherRequest key lat lng)).body = weatherBody t wc)
    (hwc : wc.hashable = true) :
    (get_weather deps lat lng net).1
      = .ok (.obj [("temperature", .str (formatF0 t ++ "°C")),
                   ("description", .str (descOf wc))]) ∧
    (get_weather deps lat lng net).2 = [weatherRequest key lat lng] ∧
    ("units", "metric") ∈ (weatherRequest key lat lng).params := by
  have hres : get_weather deps lat lng net
      = (.ok (.obj [("temperature", .str (formatF0 t ++ "°C")),
                    ("description", .str (descOf wc))]), [weatherRequest key lat lng]) := by
    simp [get_weather, hkey, hstatus, hbody, weatherBody, Json.get, List.lookup, hwc]
  exact ⟨by rw [hres], by rw [hres], by simp [weatherRequest]⟩

/-- Claim C3, witness: a concrete run with apparent temperature 21 and
weather code 8000. -/
theorem C3_weather_metric_format_witness :
    (get_weather ⟨some "w", none, none⟩ 10 20
        (fun _ => ⟨200, weatherBody 21 (Json.num 8000)⟩)).1
      = .ok (.obj [("temperature", .str (formatF0 21 ++ "°C")),
                   ("description", .str (descOf (Json.num 8000)))]) :=
  (C3_weather_metric_format ⟨some "w", none, none⟩ "w" 10 20 21 (Json.num 8000)
    (fun _ => ⟨200, weatherBody 21 (Json.num 8000)⟩) rfl rfl rfl rfl).1

/-- Claim C4: with a geocoding API key configured, a successful (2xx)
geocoding response whose body is a non-empty candidate list with
numeric `lat`/`lon` fields on the first candidate makes `get_lat_lng`
return exactly that first candidate's latitude and longitude as the
`lat`/`lng` numbers of the result. -/
theorem C4_geocode_first_candidate (deps : Deps) (key loc : String) (first : Json)
    (rest : List Json) (la lo : ℚ) (net : Net)
    (hkey : deps.geo_api_key = some key)
    (hstatus : statusOk (net (geoRequest loc key)).status = true)
    (hbody : (net (geoRequest loc key)).body = .arr (first :: rest))
    (hla : first.get "lat" = some (.num la))
    (hlo : first.get "lon" = some (.num lo)) :
    (get_lat_lng deps loc net).1
      = .ok (.obj [("lat", .num la), ("lng", .num lo)]) := by
  simp [get_lat_lng, hkey, hstatus, hbody, Json.truthy, hla, hlo]

/-- Claim C4, witness: a concrete run with one candidate at (48, 2). -/
theorem C4_geocode_first_candidate_witness :
    (get_lat_lng ⟨none, some "g", none⟩ "Paris"
        (fun _ => ⟨200, Json.arr [Json.obj [("lat", Json.num 48), ("lon", Json.num 2)]]⟩)).1
      = .ok (.obj [("lat", Json.num 48), ("lng", Json.num 2)]) :=
  C4_geocode_first_candidate ⟨none, some "g", none⟩ "g" "Paris"
    (Json.obj [("lat", Json.num 48), ("lon", Json.num 2)]) [] 48 2
    (fun _ => ⟨200, Json.arr [Json.obj [("lat", Json.num 48), ("lon", Json.num 2)]]⟩)
    rfl rfl rfl rfl rfl

/-- Claim C5: with no geocoding API key configured, `get_lat_lng`
returns the fixed fallback pair (51.1, -0.1) for every input text and
issues no network request. -/
theorem C5_geocode_mock (deps : Deps) (loc : String) (net : Net)
    (h : deps.geo_api_key = none) :
    get_lat_lng deps loc net
      = (.ok (.obj [("lat", .num 51.1), ("lng", .num (-0.1))]), []) := by
  simp [get_lat_lng, h]

/-- Claim C5, witness: a concrete keyless run. -/
theorem C5_geocode_mock_witness :
    get_lat_lng ⟨some "w", none, some "a"⟩ "anywhere" (fun _ => ⟨500, Json.null⟩)
      = (.ok (.obj [("lat", .num 51.1), ("lng", .num (-0.1))]), []) :=
  C5_geocode_mock ⟨some "w", none, some "a"⟩ "anywhere" (fun _ => ⟨500, Json.null⟩) rfl

/-- Claim C6: with no weather API key configured, `get_weather`
returns the fixed mock temperature "21 °C" for every input, issues no
network request, and its result has no description field. -/
theorem C6_weather_mock (deps : Deps) (lat lng : ℚ) (net : Net)
    (h : deps.weather_api_key = none) :
    get_weather deps lat lng net
      = (.ok (.obj [("temperature", .str "21 °C")]), []) ∧
    (Json.obj [("temperature", Json.str "21 °C")]).get "description" = none := by
  exact ⟨by simp [get_weather, h], rfl⟩

/-- Claim C6, witness: a concrete keyless run. -/
theorem C6_weather_mock_witness :
    get_weather ⟨none, some "g", some "a"⟩ 48 2 (fun _ => ⟨500, Json.null⟩)
      = (.ok (.obj [("temperature", .str "21 °C")]), []) :=
  (C6_weather_mock ⟨none, some "g", some "a"⟩ 48 2 (fun _ => ⟨500, Json.null⟩) rfl).1

/-- Claim C7: with no air-quality API key configured, `get_aqi` returns
the sentinel 10000 for every input and issues no network request. -/
theorem C7_aqi_mock (deps : Deps) (lat lng : ℚ) (net : Net)
    (h : deps.aqi_index_key = none) :
    get_aqi deps lat lng net
      = (.ok (.obj [("AirQualityIndex", .num 10000)]), []) := by
  simp [get_aqi, h]

/-- Claim C7, witness: a concrete keyless run. -/
theorem C7_aqi_mock_witness :
    get_aqi ⟨some "w", some "g", none⟩ 48 2 (fun _ => ⟨500, Json.null⟩)
      = (.ok (.obj [("AirQualityIndex", .num 10000)]), []) :=
  C7_aqi_mock ⟨some "w", some "g", none⟩ 48 2 (fun _ => ⟨500, Json.null⟩) rfl

/-- Claim C8: with an air-quality API key configured and a successful
(2xx) response, an empty/falsy body makes `get_aqi` raise the same
retryable "Could not find the location" signal as the geocoding tool,
and a body carrying a numeric nested `data.aqi` value makes it return
that index. -/
theorem C8_aqi_empty_retries (deps : Deps) (token : String) (lat lng : ℚ) (net : Net)
    (hkey : deps.aqi_index_key = some token)
    (hstatus : statusOk (net (aqiRequest token lat lng)).status = true) :
    ((net (aqiRequest token lat lng)).body.truthy = false →
      (get_aqi deps lat lng net).1 = .error (.retry "Could not find the location")) ∧
    (∀ (d : Json) (v : ℚ),
      (net (aqiRequest token lat lng)).body.get "data" = some d →
      d.get "aqi" = some (.num v) →
      (get_aqi deps lat lng net).1 = .ok (.obj [("AirQualityIndex", .num v)])) := by
  constructor
  · intro hfalsy
    simp [get_aqi, hkey, hstatus, hfalsy]
  · intro d v hd hv
    have htruthy : (net (aqiRequest token lat lng)).body.truthy = true :=
      Json.truthy_of_get hd
    simp [get_aqi, hkey, hstatus, htruthy, hd, hv]

/-- Claim C8, witness: a concrete run against a 200 response with a
falsy (null) body. -/
theorem C8_aqi_empty_retries_witness :
    (get_aqi ⟨none, none, some "t"⟩ 0 0 (fun _ => ⟨200, Json.null⟩)).1
      = .error (.retry "Could not find the location") :=
  (C8_aqi_empty_retries ⟨none, none, some "t"⟩ "t" 0 0
    (fun _ => ⟨200, Json.null⟩) rfl rfl).1 rfl

/-- Claim C9: the orchestrating agent is configured with a maximum
retry count per tool call of exactly 2. -/
theorem C9_agent_retries : weather_agent.retries = 2 := rfl

/-- Claim C10: `get_weather` has no retryable failure path: for every
dependency bag, coordinates and network behaviour, its outcome is never
the retryable ModelRetry signal. -/
theorem C10_weather_never_retries (deps : Deps) (lat lng : ℚ) (net : Net) :
    retrySignal (get_weather deps lat lng net).1 = false := by
  unfold get_weather
  cases deps.weather_api_key with
  | none => rfl
  | some key =>
      simp only
      repeat' first | rfl | split
